import Mathlib

/-!
Shallow embedding of the Voice-Driven Driver Assistant frontend
(`frontend/app/driver.tsx` and `frontend/services/mapsService.ts`).

Conventions of the embedding:
* JavaScript 32-bit bitwise arithmetic (`|`, `&`, `<<`, `>>`, `~`) is modelled
  explicitly on `Int` with the ToInt32/ToUint32 conversions of the JS spec.
* Coordinates are modelled with rational components (`ℚ`); the floating-point
  trigonometry of `calculateDistance` is modelled over `ℝ`.
* `charCodeAt` past the end of a string yields `NaN` in JS; `NaN - 63` is
  `NaN`, `NaN & 0x1f` is `0`, and `NaN >= 0x20` is `false`, so an exhausted
  input terminates the variable-length-integer loop.  The embedding models
  this by the empty-list case of `readVarint`.
* Fallible remote calls are passed in as `Except`/`Option` arguments.
-/

/-- Unsigned 32-bit view of a JS number, as used by the bitwise operators. -/
def toUint32 (n : Int) : Nat := (n % 4294967296).toNat

/-- Signed 32-bit (two's complement) value of a JS bitwise-operator result. -/
def toInt32 (n : Int) : Int :=
  let m := toUint32 n
  if m < 2147483648 then (m : Int) else (m : Int) - 4294967296

/-- JS `a & b`. -/
def jsAnd (a b : Int) : Int := toInt32 ((toUint32 a &&& toUint32 b : Nat) : Int)

/-- JS `a | b`. -/
def jsOr (a b : Int) : Int := toInt32 ((toUint32 a ||| toUint32 b : Nat) : Int)

/-- JS `a << k` (shift count is taken mod 32). -/
def jsShl (a : Int) (k : Nat) : Int := toInt32 ((toUint32 a <<< (k % 32) : Nat) : Int)

/-- JS `a >> k` (arithmetic shift on the signed 32-bit value = floor division). -/
def jsShr (a : Int) (k : Nat) : Int := Int.fdiv (toInt32 a) ((2 : Int) ^ (k % 32))

/-- JS `~a`. -/
def jsNot (a : Int) : Int := toInt32 (-(toInt32 a) - 1)

/-- One `do { b = encoded.charCodeAt(index++) - 63; result |= (b & 0x1f) << shift;
shift += 5; } while (b >= 0x20)` loop of `decodePolyline`, on the remaining
character codes.  The empty-list case is the out-of-range read: `b` is `NaN`,
which contributes `0` bits and fails the `b >= 0x20` test, ending the loop. -/
def readVarint : List Int → Nat → Int → Int × List Int
  | [], _, result => (result, [])
  | c :: rest, shift, result =>
    let b := c - 63
    let result1 := jsOr result (jsShl (jsAnd b 31) shift)
    if 32 ≤ b then readVarint rest (shift + 5) result1 else (result1, rest)

/-- The `result & 1 ? ~(result >> 1) : (result >> 1)` delta decoding. -/
def zigzag (result : Int) : Int :=
  if jsAnd result 1 ≠ 0 then jsNot (jsShr result 1) else jsShr result 1

/-- The `while (index < len)` loop of `decodePolyline`.  Every iteration of the
JS loop advances `index` by at least 2 (each varint read increments `index` at
least once, even past the end of the string), so the loop runs at most
`codes.length` times; the embedding makes that bound a structural fuel
argument, and `decodeAux_fuel_irrelevant` below shows any fuel
`≥ codes.length` computes the same list. -/
def decodeAux : Nat → List Int → Int → Int → List (Int × Int)
  | 0, _, _, _ => []
  | _ + 1, [], _, _ => []
  | fuel + 1, c :: rest, lat, lng =>
    let p1 := readVarint (c :: rest) 0 0
    let lat1 := lat + zigzag p1.1
    let p2 := readVarint p1.2 0 0
    let lng1 := lng + zigzag p2.1
    (lat1, lng1) :: decodeAux fuel p2.2 lat1 lng1

/-- `decodePolyline` of `driver.tsx` (lines 232-261).  The returned pairs are
the accumulated `lat`/`lng` integers; the source divides them by `1e5` when
building each point, so a pair `(3850000, -12020000)` is the coordinate
`(38.5, -120.2)`. -/
def decodePolyline (encoded : String) : List (Int × Int) :=
  let codes := encoded.data.map (fun ch => (ch.toNat : Int))
  decodeAux codes.length codes 0 0

/-- Degrees to radians, the `toRadians` closure of
`MapsService.calculateDistance`. -/
noncomputable def toRadians (degrees : ℝ) : ℝ := degrees * Real.pi / 180

open Classical in
/-- JS `Math.atan2(y, x)` on (non-NaN) reals. -/
noncomputable def jsAtan2 (y x : ℝ) : ℝ :=
  if 0 < x then Real.arctan (y / x)
  else if x < 0 ∧ 0 ≤ y then Real.arctan (y / x) + Real.pi
  else if x < 0 ∧ y < 0 then Real.arctan (y / x) - Real.pi
  else if x = 0 ∧ 0 < y then Real.pi / 2
  else if x = 0 ∧ y < 0 then -(Real.pi / 2)
  else 0

/-- The local `a` of `MapsService.calculateDistance`:
`sin(dLat/2)*sin(dLat/2) + cos(toRadians lat1)*cos(toRadians lat2)*sin(dLon/2)*sin(dLon/2)`. -/
noncomputable def hvA (lat1 lon1 lat2 lon2 : ℝ) : ℝ :=
  Real.sin (toRadians (lat2 - lat1) / 2) * Real.sin (toRadians (lat2 - lat1) / 2) +
    Real.cos (toRadians lat1) * Real.cos (toRadians lat2) *
      Real.sin (toRadians (lon2 - lon1) / 2) * Real.sin (toRadians (lon2 - lon1) / 2)

/-- `MapsService.calculateDistance` (mapsService.ts lines 102-118): haversine
with Earth radius `R = 6371` km, `c = 2 * atan2(sqrt a, sqrt (1 - a))`, and the
kilometre result `R * c` converted to metres by `* 1000`. -/
noncomputable def calculateDistance (lat1 lon1 lat2 lon2 : ℝ) : ℝ :=
  6371 * (2 * jsAtan2 (Real.sqrt (hvA lat1 lon1 lat2 lon2))
    (Real.sqrt (1 - hvA lat1 lon1 lat2 lon2))) * 1000

/-- A latitude/longitude pair.  The source's coordinate objects carry two JS
numbers; the embedding uses rationals for them (the trigonometry of
`calculateDistance` casts them into `ℝ`). -/
structure Coord where
  latitude : ℚ
  longitude : ℚ
deriving DecidableEq

/-- `MapsService.getApiKey` (mapsService.ts lines 15-56), branch for the case
that the local environment key was absent/empty: read the stored token
(`AsyncStorage.getItem`, which can reject), fall back to `'DEVELOPMENT_KEY'`
when no (truthy) token is stored, otherwise fetch the key from the backend.
Any rejection lands in the `catch`: `'DEVELOPMENT_KEY'` when `__DEV__`,
otherwise the error is re-thrown. -/
def fetchKeyViaToken (storedToken : Except Unit (Option String))
    (remoteKey : Except Unit String) (isDev : Bool) : Except Unit String :=
  let onError : Except Unit String :=
    if isDev then Except.ok "DEVELOPMENT_KEY" else Except.error ()
  match storedToken with
  | Except.error _ => onError
  | Except.ok none => Except.ok "DEVELOPMENT_KEY"
  | Except.ok (some tok) =>
    if tok = "" then Except.ok "DEVELOPMENT_KEY"
    else
      match remoteKey with
      | Except.ok key => Except.ok key
      | Except.error _ => onError

/-- `MapsService.getApiKey`: `localKey` is `process.env.EXPO_PUBLIC_GOOGLE_MAPS_API_KEY`
(`if (apiKey)` is a JS truthiness test, so an empty string falls through),
`storedToken` the result of `AsyncStorage.getItem('userToken')`, `remoteKey`
the result of the authenticated backend fetch, `isDev` the `__DEV__` flag. -/
def getApiKey (localKey : Option String) (storedToken : Except Unit (Option String))
    (remoteKey : Except Unit String) (isDev : Bool) : Except Unit String :=
  match localKey with
  | some k => if k = "" then fetchKeyViaToken storedToken remoteKey isDev else Except.ok k
  | none => fetchKeyViaToken storedToken remoteKey isDev

/-- `x?.field || dflt` on an optional string field: the default is used both
when the object is missing and when the string is empty (falsy). -/
def orElseStr (x : Option String) (dflt : String) : String :=
  match x with
  | some s => if s = "" then dflt else s
  | none => dflt

/-- Drop characters up to and including the next `'>'`; used for the contents
of an HTML tag.  (The `stripHtml` regexes of driver.tsx lines 72-77 are
modelled as character-list scanners.) -/
def skipPastGt (inTag : Bool) : List Char → List Char
  | [] => []
  | c :: rest =>
    if inTag then skipPastGt (c != '>') rest
    else if c = '<' then skipPastGt true rest
    else c :: skipPastGt false rest

/-- Split a character list at the first occurrence of `pat`, returning the
part before it and the part after it. -/
def splitAtPat (pat : List Char) : List Char → Option (List Char × List Char)
  | [] => none
  | c :: rest =>
    if pat.isPrefixOf (c :: rest) then some ([], (c :: rest).drop pat.length)
    else
      match splitAtPat pat rest with
      | some (pre, post) => some (c :: pre, post)
      | none => none

/-- Drop characters up to and including the first `'>'` (the `[^>]*>` part of
the `<div[^>]*>` pattern). -/
def dropThroughGt : List Char → List Char
  | [] => []
  | c :: rest => if c = '>' then rest else dropThroughGt rest

/-- The global `html.replace(/<div[^>]*>.*?<\/div>/g, '')` of `stripHtml`,
 modelled as a scanner: repeatedly find `<div`, skip the rest of the opening
tag, and drop everything through the matching `</div>`. -/
def removeDivsAux : Nat → List Char → List Char
  | 0, l => l
  | fuel + 1, l =>
    match splitAtPat ['<', 'd', 'i', 'v'] l with
    | none => l
    | some (pre, afterOpen) =>
      match splitAtPat ['<', '/', 'd', 'i', 'v', '>'] (dropThroughGt afterOpen) with
      | none => l
      | some (_, afterClose) => pre ++ removeDivsAux fuel afterClose

/-- `String.prototype.trim`, on the character list. -/
def trimChars (l : List Char) : List Char :=
  ((l.dropWhile Char.isWhitespace).reverse.dropWhile Char.isWhitespace).reverse

/-- `stripHtml` of driver.tsx (lines 72-77): remove `<div>…</div>` blocks,
remove all remaining tags, and trim. -/
def stripHtml (html : String) : String :=
  let chars := html.data
  let noDivs := removeDivsAux chars.length chars
  String.mk (trimChars (skipPastGt false noDivs))

/-- A `{text, value}` object as found in a provider step's `distance` and
`duration_in_traffic` fields. -/
structure DistanceVal where
  text : String
  value : Int
deriving DecidableEq

/-- A raw provider route step: `html_instructions`, `distance` and
`end_location` (the provider names the components `lat`/`lng`). -/
structure RawStep where
  html_instructions : Option String
  distance : Option DistanceVal
  end_location : Coord
deriving DecidableEq

/-- A step after the `leg.steps.map(...)` processing of `handleApprove` /
`navigateToDestination`: `plain_instructions` and a defaulted `distance`. -/
structure ProcessedStep where
  plain_instructions : String
  distance : DistanceVal
  end_location : Coord
deriving DecidableEq

/-- `leg.steps.map((step) => ({...step, plain_instructions: step.html_instructions ?
stripHtml(step.html_instructions) : "Continue", distance: step.distance ||
{text: "Unknown distance", value: 0}}))`. -/
def processStep (step : RawStep) : ProcessedStep :=
  { plain_instructions :=
      match step.html_instructions with
      | some h => if h = "" then "Continue" else stripHtml h
      | none => "Continue",
    distance := step.distance.getD ⟨"Unknown distance", 0⟩,
    end_location := step.end_location }

/-- A provider leg: its `steps` array (absent/non-array modelled as `none`),
`duration_in_traffic` and `distance`. -/
structure Leg where
  steps : Option (List RawStep)
  duration_in_traffic : Option DistanceVal
  distance : Option DistanceVal
deriving DecidableEq

/-- A provider route: `legs` and `overview_polyline` (the `points` string;
an absent or empty `points` is modelled through the `Option`/emptiness test). -/
structure RouteObj where
  legs : List Leg
  overview_polyline : Option String
deriving DecidableEq

/-- The `routes` wrapper inside the directions payload. -/
structure RoutesPayload where
  routes : List RouteObj
deriving DecidableEq

/-- The body returned by `MapsService.getDirections`; `handleApprove` reads
`directions.directions.routes[0]`. -/
structure DirectionsResponse where
  directions : RoutesPayload
deriving DecidableEq

/-- The driver-screen state touched by `handleApprove` and the ride reset
 (driver.tsx `useState` hooks).  Presentation-only fields (animations, map
 type, chat bubbles, …) are out of scope and omitted. -/
structure RideState where
  approve : Bool
  showModal : Bool
  isNavigatingToCustomer : Bool
  currentMarker : Option Coord
  destinationMarker : Option Coord
  customerCoords : Option Coord
  steps : List ProcessedStep
  nextInstruction : Option String
  durationInTraffic : Option String
  distance : Option String
  routeCoordinates : List (Int × Int)
  currentStepIndex : Nat
deriving DecidableEq

/-- `handleApprove` of driver.tsx (lines 275-353).  `region` is the current
map region (only its latitude/longitude are read), `placeResult` the outcome
of `MapsService.getPlaceCoordinates(customer.origin)` and `directionsResult`
the outcome of `MapsService.getDirections`.  The body follows the source
line by line: the `approve`/`showModal`/`isNavigatingToCustomer` updates
happen before the `try`, the coordinate/marker updates happen inside the
`try` before `getDirections` is awaited, and the `catch` only logs and sets
`isNavigatingToCustomer` back to `false`.  The
`!customerCoordsResponse.latitude || !customerCoordsResponse.longitude`
truthiness test is the `= 0` test (NaN coordinates are not modelled);
`routes[0]` on an empty `routes` array is `undefined`, so reading `.legs`
throws and lands in the `catch`, as does the explicit
`throw new Error("Invalid leg structure")` when `legs[0]` or its `steps`
array is missing. -/
def handleApprove (s : RideState) (region : Option Coord)
    (placeResult : Except Unit Coord)
    (directionsResult : Except Unit DirectionsResponse) : RideState :=
  let s0 := { s with approve := true, showModal := false, isNavigatingToCustomer := true }
  match region with
  | none => s0
  | some reg =>
    let s1 :=
      match s0.currentMarker with
      | none => { s0 with currentMarker := some ⟨reg.latitude, reg.longitude⟩ }
      | some _ => s0
    match placeResult with
    | Except.error _ => { s1 with isNavigatingToCustomer := false }
    | Except.ok coords =>
      if coords.latitude = 0 ∨ coords.longitude = 0 then
        { s1 with isNavigatingToCustomer := false }
      else
        let s2 := { s1 with customerCoords := some coords, destinationMarker := some coords }
        match directionsResult with
        | Except.error _ => { s2 with isNavigatingToCustomer := false }
        | Except.ok dirs =>
          match dirs.directions.routes.head? with
          | none => { s2 with isNavigatingToCustomer := false }
          | some route =>
            match route.legs.head? with
            | none => { s2 with isNavigatingToCustomer := false }
            | some leg =>
              match leg.steps with
              | none => { s2 with isNavigatingToCustomer := false }
              | some rawSteps =>
                let steps := rawSteps.map processStep
                let instr := orElseStr
                  ((steps.head?).map (fun st => st.plain_instructions)) "Start navigation"
                let s3 := { s2 with steps := steps, nextInstruction := some instr }
                let s4 :=
                  match leg.duration_in_traffic with
                  | some d =>
                    if d.text = "" then s3 else { s3 with durationInTraffic := some d.text }
                  | none => s3
                let s5 :=
                  match leg.distance with
                  | some d => if d.text = "" then s4 else { s4 with distance := some d.text }
                  | none => s4
                match route.overview_polyline with
                | some points =>
                  if points = "" then s5
                  else
                    let pts := decodePolyline points
                    if 0 < pts.length then { s5 with routeCoordinates := pts } else s5
                | none => s5

/-- A ride-request-pending state: the request modal is showing, nothing
ride-scoped is populated yet. -/
def requestPendingExample : RideState :=
  { approve := false, showModal := true, isNavigatingToCustomer := false,
    currentMarker := none, destinationMarker := none, customerCoords := none,
    steps := [], nextInstruction := none, durationInTraffic := none,
    distance := none, routeCoordinates := [], currentStepIndex := 0 }

/-- The fields of the driver screen read and written by `checkNextStep`. -/
structure NavState where
  steps : List ProcessedStep
  currentStepIndex : Nat
  nextInstruction : Option String
deriving DecidableEq

/-- `checkNextStep` of driver.tsx (lines 475-490), run on every location
sample: bail out when the cursor is past the steps array (`!steps` is never
true for an array), otherwise compare the haversine distance to the current
step's `end_location` with 50 m and advance the cursor.  The instruction is
updated to `steps[currentStepIndex + 1]?.plain_instructions || ''`. -/
noncomputable def checkNextStep (s : NavState) (loc : Coord) : NavState :=
  if s.steps.length ≤ s.currentStepIndex then s
  else
    match s.steps.get? s.currentStepIndex with
    | none => s
    | some nextStep =>
      if calculateDistance (loc.latitude : ℝ) (loc.longitude : ℝ)
          (nextStep.end_location.latitude : ℝ) (nextStep.end_location.longitude : ℝ) < 50 then
        let instr := orElseStr
          ((s.steps.get? (s.currentStepIndex + 1)).map (fun st => st.plain_instructions)) ""
        { s with currentStepIndex := s.currentStepIndex + 1, nextInstruction := some instr }
      else s

/-- A sequence of location samples processed by the `watchPositionAsync`
callback (each sample runs `checkNextStep`). -/
noncomputable def navRun (s : NavState) (locs : List Coord) : NavState :=
  locs.foldl checkNextStep s

/-- A one-step route ending at `(1, 1)`, for concrete runs. -/
def demoNavStep : ProcessedStep :=
  { plain_instructions := "Arrive", distance := ⟨"10 m", 10⟩, end_location := ⟨1, 1⟩ }

/-- A navigation state holding that one-step route with the cursor at 0. -/
def demoNavState : NavState :=
  { steps := [demoNavStep], currentStepIndex := 0, nextInstruction := none }

/-- The destination-proximity poll body of `navigateToDestination`
(driver.tsx lines 453-469): true when the interval callback calls
`handleDestinationReached()`.  The source computes
`calculateDistance(location.lat, location.lng, 3.120864, 101.655115) < 50`
— the resolved `destinationCoords` arguments are commented out in favour of
the hard-coded pair, which is why `resolvedDestination` is unused here. -/
noncomputable def destinationProximityHit (loc : Coord) (_resolvedDestination : Coord) : Prop :=
  calculateDistance (loc.latitude : ℝ) (loc.longitude : ℝ)
    (((3.120864 : ℚ) : ℝ)) (((101.655115 : ℚ) : ℝ)) < 50

/-- The voice-activity-detection state of the driver screen:
`hasDetectedSpeech`, `silenceCounter` and `isRecording`. -/
structure VadState where
  hasDetectedSpeech : Bool
  silenceCounter : Nat
  isRecording : Bool
deriving DecidableEq

/-- The outcome of one 3-second chunk of `checkForSpeech`
(driver.tsx lines 716-837): the detect-speech endpoint answered
`speech_detected: true` or `false`, answered with a non-2xx status
(`httpError`), the transport/file read/JSON parse threw (`transportError`),
or the chunk recording itself failed / had no URI (`chunkFailure`). -/
inductive ChunkResult
  | speech
  | silence
  | httpError
  | transportError
  | chunkFailure
deriving DecidableEq

/-- One chunk-handling step of `checkForSpeech`.  Returns the new VAD state
and whether `stopRecording()` was auto-triggered.  Every non-stop outcome
re-invokes `checkForSpeech()`, continuing the loop.
* non-2xx: `setSilenceCounter(0)` and continue (lines 770-776);
* transport error: continue with the state unchanged (lines 815-819);
* chunk failure: continue with the state unchanged (lines 744-748, 821-836);
* speech: `setHasDetectedSpeech(true)`, `setSilenceCounter(0)`, continue;
* silence before any speech: keep waiting, counter untouched;
* silence after speech: increment; at 2, `setIsRecording(false)` and stop. -/
def vadStep (s : VadState) (r : ChunkResult) : VadState × Bool :=
  match r with
  | ChunkResult.httpError => ({ s with silenceCounter := 0 }, false)
  | ChunkResult.transportError => (s, false)
  | ChunkResult.chunkFailure => (s, false)
  | ChunkResult.speech => ({ s with hasDetectedSpeech := true, silenceCounter := 0 }, false)
  | ChunkResult.silence =>
    if s.hasDetectedSpeech = false then (s, false)
    else
      if 2 ≤ s.silenceCounter + 1 then
        ({ s with silenceCounter := s.silenceCounter + 1, isRecording := false }, true)
      else
        ({ s with silenceCounter := s.silenceCounter + 1 }, false)

/-- Run the VAD loop over a sequence of chunk outcomes, stopping as soon as
a chunk auto-stops the recording. -/
def vadRun : VadState → List ChunkResult → VadState × Bool
  | s, [] => (s, false)
  | s, r :: rest =>
    let p := vadStep s r
    if p.2 then (p.1, true) else vadRun p.1 rest

/-- The VAD state set up by `startRecording` (driver.tsx lines 944-947):
speech not yet detected, silence counter 0, recording active. -/
def initVadState : VadState := ⟨false, 0, true⟩

/-! ### Helper lemmas -/

theorem readVarint_nil (sh : Nat) (r : Int) : readVarint [] sh r = (r, []) := rfl

theorem readVarint_snd_length_le (l : List Int) : ∀ (sh : Nat) (r : Int),
    (readVarint l sh r).2.length ≤ l.length := by
  induction l with
  | nil => intro sh r; simp [readVarint]
  | cons c rest ih =>
    intro sh r
    simp only [readVarint]
    split
    · exact Nat.le_succ_of_le (ih _ _)
    · exact Nat.le_succ _

theorem readVarint_cons_length_le (c : Int) (rest : List Int) (sh : Nat) (r : Int) :
    (readVarint (c :: rest) sh r).2.length ≤ rest.length := by
  simp only [readVarint]
  split
  · exact readVarint_snd_length_le rest _ _
  · exact Nat.le_refl _

theorem decodeAux_length_le : ∀ (n : Nat) (codes : List Int) (lat lng : Int),
    (decodeAux n codes lat lng).length ≤ codes.length := by
  intro n
  induction n with
  | zero => intro codes lat lng; simp [decodeAux]
  | succ k ih =>
    intro codes lat lng
    match codes with
    | [] => simp [decodeAux]
    | c :: rest =>
      simp only [decodeAux, List.length_cons]
      have h1 := readVarint_cons_length_le c rest 0 0
      have h2 := readVarint_snd_length_le (readVarint (c :: rest) 0 0).2 0 0
      have h3 := ih (readVarint (readVarint (c :: rest) 0 0).2 0 0).2
        (lat + zigzag (readVarint (c :: rest) 0 0).1)
        ((lng + zigzag (readVarint (readVarint (c :: rest) 0 0).2 0 0).1))
      omega

theorem decodeAux_fuel_irrelevant : ∀ (n m : Nat) (codes : List Int) (lat lng : Int),
    codes.length ≤ n → codes.length ≤ m →
    decodeAux n codes lat lng = decodeAux m codes lat lng := by
  intro n
  induction n with
  | zero =>
    intro m codes lat lng hn hm
    match codes with
    | [] => cases m <;> simp [decodeAux]
    | c :: rest => simp at hn
  | succ k ih =>
    intro m codes lat lng hn hm
    match codes with
    | [] => cases m <;> simp [decodeAux]
    | c :: rest =>
      match m with
      | 0 => simp at hm
      | m1 + 1 =>
        simp only [decodeAux]
        have h1 := readVarint_cons_length_le c rest 0 0
        have h2 := readVarint_snd_length_le (readVarint (c :: rest) 0 0).2 0 0
        simp only [List.length_cons] at hn hm
        congr 1
        apply ih
        · omega
        · omega

theorem hvA_self (lat lon : ℝ) : hvA lat lon lat lon = 0 := by
  unfold hvA toRadians
  simp [sub_self, zero_mul, zero_div, Real.sin_zero, mul_zero, add_zero]

theorem hvA_symm (lat1 lon1 lat2 lon2 : ℝ) :
    hvA lat1 lon1 lat2 lon2 = hvA lat2 lon2 lat1 lon1 := by
  unfold hvA toRadians
  have h1 : lat1 - lat2 = -(lat2 - lat1) := by ring
  have h2 : lon1 - lon2 = -(lon2 - lon1) := by ring
  rw [h1, h2]
  simp only [neg_mul, neg_div, Real.sin_neg]
  ring

theorem calcDist_self (lat lon : ℝ) : calculateDistance lat lon lat lon = 0 := by
  unfold calculateDistance
  rw [hvA_self]
  simp [jsAtan2, Real.sqrt_zero, Real.sqrt_one]

theorem calcDist_symm (lat1 lon1 lat2 lon2 : ℝ) :
    calculateDistance lat1 lon1 lat2 lon2 = calculateDistance lat2 lon2 lat1 lon1 := by
  unfold calculateDistance
  rw [hvA_symm]

theorem checkNextStep_steps (s : NavState) (loc : Coord) :
    (checkNextStep s loc).steps = s.steps := by
  unfold checkNextStep
  split
  · rfl
  · split
    · rfl
    · split <;> rfl

theorem checkNextStep_cursor_mono (s : NavState) (loc : Coord) :
    s.currentStepIndex ≤ (checkNextStep s loc).currentStepIndex := by
  unfold checkNextStep
  split
  · exact Nat.le_refl _
  · split
    · exact Nat.le_refl _
    · split
      · exact Nat.le_succ _
      · exact Nat.le_refl _

theorem checkNextStep_cursor_le (s : NavState) (loc : Coord)
    (h : s.currentStepIndex ≤ s.steps.length) :
    (checkNextStep s loc).currentStepIndex ≤ s.steps.length := by
  unfold checkNextStep
  split
  · exact h
  · rename_i hlt
    split
    · exact h
    · split
      · show s.currentStepIndex + 1 ≤ s.steps.length
        omega
      · exact h

theorem vadStep_counter_le (s : VadState) (r : ChunkResult)
    (h : s.silenceCounter ≤ 1) (hstop : (vadStep s r).2 = false) :
    (vadStep s r).1.silenceCounter ≤ 1 := by
  cases r
  case speech => simp [vadStep]
  case httpError => simp [vadStep]
  case transportError => simpa [vadStep] using h
  case chunkFailure => simpa [vadStep] using h
  case silence =>
    cases hds : s.hasDetectedSpeech with
    | false => simpa [vadStep, hds] using h
    | true =>
      by_cases hc : 2 ≤ s.silenceCounter + 1
      · simp [vadStep, hds, hc] at hstop
      · simp [vadStep, hds, hc]
        omega

theorem vadStep_keeps_undetected (s : VadState) (r : ChunkResult)
    (hd : s.hasDetectedSpeech = false) (hr : r ≠ ChunkResult.speech) :
    (vadStep s r).1.hasDetectedSpeech = false ∧ (vadStep s r).2 = false := by
  cases r <;> simp_all [vadStep]

theorem vadRun_counter_le (chunks : List ChunkResult) : ∀ (s : VadState),
    s.silenceCounter ≤ 1 → ∀ (s1 : VadState),
    vadRun s chunks = (s1, false) → s1.silenceCounter ≤ 1 := by
  induction chunks with
  | nil =>
    intro s hs s1 hrun
    simp only [vadRun] at hrun
    cases hrun
    exact hs
  | cons r rest ih =>
    intro s hs s1 hrun
    simp only [vadRun] at hrun
    by_cases hp : (vadStep s r).2 = true
    · simp [hp] at hrun
    · simp only [hp, if_false] at hrun
      have hp' : (vadStep s r).2 = false := by simpa using hp
      exact ih (vadStep s r).1 (vadStep_counter_le s r hs hp') s1 hrun

theorem vadRun_no_speech (chunks : List ChunkResult) : ∀ (s : VadState),
    s.hasDetectedSpeech = false → ChunkResult.speech ∉ chunks →
    (vadRun s chunks).2 = false := by
  induction chunks with
  | nil => intro s hd hmem; simp [vadRun]
  | cons r rest ih =>
    intro s hd hmem
    have hr : r ≠ ChunkResult.speech := by
      intro hre
      exact hmem (by simp [hre])
    have hk := vadStep_keeps_undetected s r hd hr
    simp only [vadRun, hk.2, if_false]
    exact ih (vadStep s r).1 hk.1 (fun hmem2 => hmem (by simp [hmem2]))

theorem fetchKeyViaToken_dev_ok (st : Except Unit (Option String))
    (rk : Except Unit String) :
    ∃ v : String, fetchKeyViaToken st rk true = Except.ok v := by
  cases st with
  | error e => exact ⟨"DEVELOPMENT_KEY", rfl⟩
  | ok t =>
    cases t with
    | none => exact ⟨"DEVELOPMENT_KEY", rfl⟩
    | some tok =>
      by_cases htok : tok = ""
      · exact ⟨"DEVELOPMENT_KEY", by simp [fetchKeyViaToken, htok]⟩
      · cases rk with
        | ok key => exact ⟨key, by simp [fetchKeyViaToken, htok]⟩
        | error e => exact ⟨"DEVELOPMENT_KEY", by simp [fetchKeyViaToken, htok]⟩

/-! ### Claim theorems -/

/-- C1 (amended): for every sequence of location samples processed while a
route is active, the step cursor is non-decreasing; and whenever it starts at
most `steps.length` it stays at most `steps.length`.  (The claim's bound
`steps.length - 1` is refuted by `stepCursor_exceeds_last_index`: finishing
the last step advances the cursor to `steps.length`.) -/
theorem stepCursor_monotone_and_bounded :
    ∀ (locs : List Coord) (s : NavState),
      s.currentStepIndex ≤ (navRun s locs).currentStepIndex ∧
      (s.currentStepIndex ≤ s.steps.length →
        (navRun s locs).currentStepIndex ≤ s.steps.length) := by
  intro locs
  induction locs with
  | nil => intro s; exact ⟨Nat.le_refl _, fun h => h⟩
  | cons loc rest ih =>
    intro s
    have hstep : navRun s (loc :: rest) = navRun (checkNextStep s loc) rest := rfl
    rw [hstep]
    constructor
    · exact Nat.le_trans (checkNextStep_cursor_mono s loc) (ih (checkNextStep s loc)).1
    · intro h
      have h2 := checkNextStep_cursor_le s loc h
      have h3 := (ih (checkNextStep s loc)).2
      rw [checkNextStep_steps] at h3
      exact h3 h2

/-- C1 (counterexample): with a one-step route ending at `(1, 1)`, cursor at
`0`, a sample at `(1, 1)` (distance 0 < 50 m) advances the cursor to `1`,
which exceeds `steps.length - 1 = 0` — the claimed bound fails. -/
theorem stepCursor_exceeds_last_index :
    demoNavState.steps.length - 1 < (checkNextStep demoNavState ⟨1, 1⟩).currentStepIndex := by
  have h0 : calculateDistance (1 : ℝ) 1 1 1 < 50 := by
    rw [calcDist_self]
    norm_num
  have h1 : (checkNextStep demoNavState ⟨1, 1⟩).currentStepIndex = 1 := by
    simp [checkNextStep, demoNavState, demoNavStep, h0]
  rw [h1]
  decide

/-- C1 (witness): the bounded-cursor statement applied to a concrete
one-sample run. -/
theorem stepCursor_monotone_and_bounded_witness :
    (navRun demoNavState [⟨1, 1⟩]).currentStepIndex ≤ demoNavState.steps.length :=
  (stepCursor_monotone_and_bounded [⟨1, 1⟩] demoNavState).2 (by decide)

/-- C2 (amended): when `getDirections` returns a route with an empty `legs`
array during `handleApprove`, only `isNavigatingToCustomer` is reset: the
`approve` flag stays `true`, the request modal stays closed, and the customer
coordinates and destination marker set before the failure remain set (the
steps are left as they were); the error is only logged, not surfaced, and not
retried. -/
theorem approveFailure_partial_update :
    ∀ (s : RideState) (reg c : Coord) (route : RouteObj),
      c.latitude ≠ 0 → c.longitude ≠ 0 → route.legs = [] →
      (handleApprove s (some reg) (Except.ok c) (Except.ok ⟨⟨[route]⟩⟩)).approve = true ∧
      (handleApprove s (some reg) (Except.ok c)
        (Except.ok ⟨⟨[route]⟩⟩)).isNavigatingToCustomer = false ∧
      (handleApprove s (some reg) (Except.ok c) (Except.ok ⟨⟨[route]⟩⟩)).showModal = false ∧
      (handleApprove s (some reg) (Except.ok c)
        (Except.ok ⟨⟨[route]⟩⟩)).customerCoords = some c ∧
      (handleApprove s (some reg) (Except.ok c)
        (Except.ok ⟨⟨[route]⟩⟩)).destinationMarker = some c ∧
      (handleApprove s (some reg) (Except.ok c) (Except.ok ⟨⟨[route]⟩⟩)).steps = s.steps := by
  intro s reg c route h1 h2 hlegs
  have hcond : ¬(c.latitude = 0 ∨ c.longitude = 0) := by
    intro hc
    cases hc with
    | inl h => exact h1 h
    | inr h => exact h2 h
  cases hm : s.currentMarker with
  | none => simp [handleApprove, hm, hcond, hlegs]
  | some m => simp [handleApprove, hm, hcond, hlegs]

/-- C2 (counterexample): starting from the request-pending state, an
empty-`legs` directions response during approve leaves `approve = true`,
`customerCoords` populated and the modal closed — the phase does *not* return
to its prior request-pending value, and ride-scoped state is left partially
updated. -/
theorem approveFailure_counterexample :
    (handleApprove requestPendingExample (some ⟨1, 1⟩) (Except.ok ⟨1, 1⟩)
      (Except.ok ⟨⟨[⟨[], none⟩]⟩⟩)).approve = true ∧
    requestPendingExample.approve = false ∧
    (handleApprove requestPendingExample (some ⟨1, 1⟩) (Except.ok ⟨1, 1⟩)
      (Except.ok ⟨⟨[⟨[], none⟩]⟩⟩)).customerCoords = some ⟨1, 1⟩ ∧
    requestPendingExample.customerCoords = none ∧
    (handleApprove requestPendingExample (some ⟨1, 1⟩) (Except.ok ⟨1, 1⟩)
      (Except.ok ⟨⟨[⟨[], none⟩]⟩⟩)).showModal = false ∧
    requestPendingExample.showModal = true := by decide

/-- C2 (witness): the amended statement applied to the concrete
request-pending state with an empty-`legs` route. -/
theorem approveFailure_partial_update_witness :
    (handleApprove requestPendingExample (some ⟨1, 1⟩) (Except.ok ⟨1, 1⟩)
      (Except.ok ⟨⟨[⟨[], none⟩]⟩⟩)).approve = true :=
  (approveFailure_partial_update requestPendingExample ⟨1, 1⟩ ⟨1, 1⟩ ⟨[], none⟩
    (by decide) (by decide) rfl).1

/-- C3: the `NavigatingToDestination` arrival check of
`navigateToDestination` fires based on the hard-coded coordinate
`(3.120864, 101.655115)` and is independent of the resolved destination
coordinate: at the hard-coded point it fires for *every* resolved
destination, however far away. -/
theorem destinationCheck_ignores_resolved :
    (∀ d : Coord, destinationProximityHit ⟨3.120864, 101.655115⟩ d) ∧
    (∀ (loc d d' : Coord),
      destinationProximityHit loc d ↔ destinationProximityHit loc d') := by
  constructor
  · intro d
    show calculateDistance (((3.120864 : ℚ) : ℝ)) (((101.655115 : ℚ) : ℝ))
      (((3.120864 : ℚ) : ℝ)) (((101.655115 : ℚ) : ℝ)) < 50
    rw [calcDist_self]
    norm_num
  · intro loc d d'
    exact Iff.rfl

/-- C4: a VAD chunk auto-stops the recording exactly when it is a silent
chunk, speech was already detected, and the silence counter reaches 2; runs
from the initial state keep the counter at most 1 until a stop, and a run
containing no speech chunk never auto-stops. -/
theorem vadAutoStop_exact :
    (∀ (s : VadState) (r : ChunkResult), s.silenceCounter ≤ 1 →
      ((vadStep s r).2 = true ↔
        (r = ChunkResult.silence ∧ s.hasDetectedSpeech = true ∧
          (vadStep s r).1.silenceCounter = 2))) ∧
    (∀ (chunks : List ChunkResult) (s1 : VadState),
      vadRun initVadState chunks = (s1, false) → s1.silenceCounter ≤ 1) ∧
    (∀ chunks : List ChunkResult, ChunkResult.speech ∉ chunks →
      (vadRun initVadState chunks).2 = false) := by
  refine ⟨?_, ?_, ?_⟩
  · intro s r h
    cases r
    case speech => simp [vadStep]
    case httpError => simp [vadStep]
    case transportError => simp [vadStep]
    case chunkFailure => simp [vadStep]
    case silence =>
      cases hds : s.hasDetectedSpeech with
      | false => simp [vadStep, hds]
      | true =>
        by_cases hc : 2 ≤ s.silenceCounter + 1
        · simp [vadStep, hds, hc]
          omega
        · simp [vadStep, hds, hc]
          omega
  · intro chunks s1 hrun
    exact vadRun_counter_le chunks initVadState (by decide) s1 hrun
  · intro chunks hmem
    exact vadRun_no_speech chunks initVadState rfl hmem

/-- C4 (witness): in the state "speech detected, one silent chunk seen", a
second silent chunk auto-stops; and a run of non-speech error chunks from the
initial state never auto-stops. -/
theorem vadAutoStop_exact_witness :
    (vadStep ⟨true, 1, true⟩ ChunkResult.silence).2 = true ∧
    (⟨true, 0, true⟩ : VadState).silenceCounter ≤ 1 ∧
    (vadRun initVadState [ChunkResult.silence, ChunkResult.httpError]).2 = false := by
  refine ⟨?_, ?_, ?_⟩
  · exact (vadAutoStop_exact.1 ⟨true, 1, true⟩ ChunkResult.silence (by decide)).mpr
      (by refine ⟨rfl, rfl, ?_⟩; decide)
  · exact vadAutoStop_exact.2.1 [ChunkResult.speech] ⟨true, 0, true⟩ (by decide)
  · exact vadAutoStop_exact.2.2 [ChunkResult.silence, ChunkResult.httpError] (by decide)

/-- C5 (counterexample): `"_"` is a truncated input — its single byte has the
continuation bit set (`'_' - 63 = 32 ≥ 0x20`), so the continuation run
exhausts the string — yet `decodePolyline` does not fail: it silently returns
the garbage point `(0, 0)`. -/
theorem decode_truncated_counterexample :
    decodePolyline "_" = [(0, 0)] ∧ 32 ≤ (('_'.toNat : Int) - 63) := by decide

/-- C5 (amended): `decodePolyline` never signals an error on truncated input:
an exhausted continuation run is terminated by the out-of-range read (which
leaves the accumulated value unchanged), and the decoder silently returns the
accumulated coordinates, including a point derived from the truncated run. -/
theorem decode_truncated_behavior :
    (∀ (sh : Nat) (r : Int), readVarint [] sh r = (r, [])) ∧
    decodePolyline "_" = [(0, 0)] :=
  ⟨fun _ _ => rfl, by decide⟩

/-- C6 (counterexample): the Scenario A string decodes to three points, not
two. -/
theorem decode_scenarioA_counterexample :
    (decodePolyline "_p~iF~ps|U_ulLnnqC_mqNvxq`@").length ≠ 2 := by decide

/-- C6 (amended): the Scenario A string decodes to exactly three points whose
first is `(38.5, -120.2)` at the source's `1e-5` scale (the others being
`(40.7, -120.95)` and `(43.252, -126.453)`). -/
theorem decode_scenarioA_points :
    decodePolyline "_p~iF~ps|U_ulLnnqC_mqNvxq`@" =
      [(3850000, -12020000), (4070000, -12095000), (4325200, -12645300)] := by decide

/-- C7 (counterexample): a transport failure of a detect-speech call does
*not* reset the silence counter to 0 — the counter is left unchanged (here at
1). -/
theorem vadFailOpen_counterexample :
    (vadStep ⟨true, 1, true⟩ ChunkResult.transportError).1.silenceCounter = 1 ∧
    (vadStep ⟨true, 1, true⟩ ChunkResult.transportError).1.silenceCounter ≠ 0 := by decide

/-- C7 (amended): a non-2xx detect-speech response resets the silence counter
to 0 and never auto-stops; a transport failure (or failed chunk recording)
leaves the whole VAD state unchanged — counter neither reset nor
incremented — and never auto-stops; in all cases the loop continues. -/
theorem vadFailOpen_behavior :
    ∀ s : VadState,
      (vadStep s ChunkResult.httpError).1.silenceCounter = 0 ∧
      (vadStep s ChunkResult.httpError).2 = false ∧
      (vadStep s ChunkResult.transportError).1 = s ∧
      (vadStep s ChunkResult.transportError).2 = false ∧
      (vadStep s ChunkResult.chunkFailure).1 = s ∧
      (vadStep s ChunkResult.chunkFailure).2 = false :=
  fun _ => ⟨rfl, rfl, rfl, rfl, rfl, rfl⟩

/-- C8: `getApiKey` returns the local key when a (truthy) one is configured;
with no local key and no stored token it returns the placeholder
`'DEVELOPMENT_KEY'` rather than throwing; when the remote fetch fails it
returns the placeholder in development mode and propagates the error only in
production mode; and in development mode it never throws. -/
theorem getApiKey_resolution :
    (∀ (k : String) (st : Except Unit (Option String)) (rk : Except Unit String) (dev : Bool),
      k ≠ "" → getApiKey (some k) st rk dev = Except.ok k) ∧
    (∀ (rk : Except Unit String) (dev : Bool),
      getApiKey none (Except.ok none) rk dev = Except.ok "DEVELOPMENT_KEY") ∧
    (∀ tok : String, tok ≠ "" →
      getApiKey none (Except.ok (some tok)) (Except.error ()) true =
        Except.ok "DEVELOPMENT_KEY" ∧
      getApiKey none (Except.ok (some tok)) (Except.error ()) false = Except.error ()) ∧
    (∀ (lk : Option String) (st : Except Unit (Option String)) (rk : Except Unit String),
      ∃ v : String, getApiKey lk st rk true = Except.ok v) := by
  refine ⟨?_, ?_, ?_, ?_⟩
  · intro k st rk dev hk
    simp [getApiKey, hk]
  · intro rk dev
    simp [getApiKey, fetchKeyViaToken]
  · intro tok htok
    constructor <;> simp [getApiKey, fetchKeyViaToken, htok]
  · intro lk st rk
    cases lk with
    | none => exact fetchKeyViaToken_dev_ok st rk
    | some k =>
      by_cases hk : k = ""
      · obtain ⟨v, hv⟩ := fetchKeyViaToken_dev_ok st rk
        exact ⟨v, by simpa [getApiKey, hk] using hv⟩
      · exact ⟨k, by simp [getApiKey, hk]⟩

/-- C8 (witness): the resolution statement applied to a concrete local key
and to a concrete failing production-mode fetch. -/
theorem getApiKey_resolution_witness :
    getApiKey (some "LOCAL") (Except.ok none) (Except.error ()) false = Except.ok "LOCAL" ∧
    getApiKey none (Except.ok (some "tkn")) (Except.error ()) false = Except.error () := by
  constructor
  · exact getApiKey_resolution.1 "LOCAL" (Except.ok none) (Except.error ()) false (by decide)
  · exact (getApiKey_resolution.2.2.1 "tkn" (by decide)).2

/-- C9: `calculateDistance` (haversine, R = 6371 km, result in metres,
modelled over the reals) vanishes on equal endpoints and is symmetric in its
two coordinates. -/
theorem calculateDistance_self_symm :
    (∀ lat lon : ℝ, calculateDistance lat lon lat lon = 0) ∧
    (∀ lat1 lon1 lat2 lon2 : ℝ,
      calculateDistance lat1 lon1 lat2 lon2 = calculateDistance lat2 lon2 lat1 lon1) :=
  ⟨calcDist_self, calcDist_symm⟩

/-- C10: `decodePolyline` is total — the empty string decodes to the empty
list, the output never has more points than input characters, the
length-bounded fuel of the embedding is irrelevant (the JS loop terminates
within `codes.length` iterations), and an out-of-range read (JS `NaN`) ends
the continuation loop with the accumulated value. -/
theorem decodePolyline_total :
    decodePolyline "" = [] ∧
    (∀ (n : Nat) (codes : List Int) (lat lng : Int),
      (decodeAux n codes lat lng).length ≤ codes.length) ∧
    (∀ (n m : Nat) (codes : List Int) (lat lng : Int),
      codes.length ≤ n → codes.length ≤ m →
      decodeAux n codes lat lng = decodeAux m codes lat lng) ∧
    (∀ (sh : Nat) (r : Int), readVarint [] sh r = (r, [])) :=
  ⟨by decide, decodeAux_length_le, decodeAux_fuel_irrelevant, readVarint_nil⟩

/-- C10 (witness): fuel irrelevance applied at a concrete input. -/
theorem decodePolyline_total_witness :
    decodeAux 2 [95] 0 0 = decodeAux 1 [95] 0 0 :=
  decodePolyline_total.2.2.1 2 1 [95] 0 0 (by decide) (by decide)
